import Mathlib

/-!
Verification development for the mlx9061x infrared-thermometer driver.

The driver's pure codecs (configuration register pack/unpack, temperature
decode) are embedded directly from the source. The effectful register
operations are embedded as functions from a bus environment (which scripts
the outcome of each read/write) to a result together with the list of bus
events (writes, reads, delays) the operation emits, in order. Machine
integers are modelled as `Nat` with explicit masking where overflow matters.
-/

/-- Modelled from the spec: the `Temperature` newtype wrapping the raw 16-bit
register value (spec section 3). Its definition lives in crate code outside
`src/`; `src/mlx90614.rs` constructs it as `Temperature(raw)`. -/
structure Temperature where
  raw : Nat
deriving DecidableEq

/-- Modelled from the spec: the crate error enum. The snapshot of
`src/types.rs` lists only `I2C`, `ChecksumMismatch` and `InvalidInputData`,
but `src/mlx90614.rs` also constructs `Error::BadRead(Temperature)` (line 57)
and `Error::BadEepromWrite` (line 115); the five-kind taxonomy follows spec
section 7 together with those use sites. -/
inductive Error (E : Type) where
  | I2C (e : E)
  | ChecksumMismatch
  | InvalidInputData
  | BadEepromWrite
  | BadRead (t : Temperature)
deriving DecidableEq

/-- Possible slave addresses (from `src/types.rs`). -/
inductive SlaveAddr where
  | Default
  | Alternative (a : Nat)
deriving DecidableEq

/-- Device handle (crate-level struct). Only the field the embedded
operations consume is kept: the bus handle and stored address are abstracted
by the bus environment. -/
structure Mlx9061x where
  eeprom_write_delay_ms : Nat

namespace types

/-- IIR filter settings, bits 0-2 (from `src/types.rs`). -/
inductive Iir where
  | Step50 | Step25 | Step17 | Step13 | Step100 | Step80 | Step67 | Step57
deriving DecidableEq

/-- Decode arm of `Config::from_bits` for the IIR field; the source inlines
this match on `bits & 0b111` (the final arm is the source's 0b111 case, the
`unreachable!()` default can never fire because the scrutinee is masked). -/
def Iir.of_bits (n : Nat) : Iir :=
  match n with
  | 0b000 => .Step50
  | 0b001 => .Step25
  | 0b010 => .Step17
  | 0b011 => .Step13
  | 0b100 => .Step100
  | 0b101 => .Step80
  | 0b110 => .Step67
  | _ => .Step57

/-- Discriminant of the `repr(u8)` enum, as read by `self.iir as u16`. -/
def Iir.toBits : Iir → Nat
  | .Step50 => 0b000
  | .Step25 => 0b001
  | .Step17 => 0b010
  | .Step13 => 0b011
  | .Step100 => 0b100
  | .Step80 => 0b101
  | .Step67 => 0b110
  | .Step57 => 0b111

/-- PWM mode configuration, bits 4-5 (from `src/types.rs`). -/
inductive PwmMode where
  | TaTobj1 | TaTobj2 | Tobj2 | Tobj1Tobj2
deriving DecidableEq

/-- Decode arm of `Config::from_bits` for the PWM mode field. -/
def PwmMode.of_bits (n : Nat) : PwmMode :=
  match n with
  | 0b00 => .TaTobj1
  | 0b01 => .TaTobj2
  | 0b10 => .Tobj2
  | _ => .Tobj1Tobj2

/-- Discriminant of the `repr(u8)` enum. -/
def PwmMode.toBits : PwmMode → Nat
  | .TaTobj1 => 0b00
  | .TaTobj2 => 0b01
  | .Tobj2 => 0b10
  | .Tobj1Tobj2 => 0b11

/-- FIR filter settings, bits 8-10 (from `src/types.rs`). -/
inductive Fir where
  | Step8 | Step16 | Step32 | Step64 | Step128 | Step256 | Step512 | Step1024
deriving DecidableEq

/-- Decode arm of `Config::from_bits` for the FIR field. -/
def Fir.of_bits (n : Nat) : Fir :=
  match n with
  | 0b000 => .Step8
  | 0b001 => .Step16
  | 0b010 => .Step32
  | 0b011 => .Step64
  | 0b100 => .Step128
  | 0b101 => .Step256
  | 0b110 => .Step512
  | _ => .Step1024

/-- Discriminant of the `repr(u8)` enum. -/
def Fir.toBits : Fir → Nat
  | .Step8 => 0b000
  | .Step16 => 0b001
  | .Step32 => 0b010
  | .Step64 => 0b011
  | .Step128 => 0b100
  | .Step256 => 0b101
  | .Step512 => 0b110
  | .Step1024 => 0b111

/-- Amplifier gain settings, bits 11-13 (from `src/types.rs`). -/
inductive Gain where
  | Gain1 | Gain3 | Gain6 | Gain12_5 | Gain25 | Gain50 | Gain100 | Gain100Alt
deriving DecidableEq

/-- Decode arm of `Config::from_bits` for the gain field. -/
def Gain.of_bits (n : Nat) : Gain :=
  match n with
  | 0b000 => .Gain1
  | 0b001 => .Gain3
  | 0b010 => .Gain6
  | 0b011 => .Gain12_5
  | 0b100 => .Gain25
  | 0b101 => .Gain50
  | 0b110 => .Gain100
  | _ => .Gain100Alt

/-- Discriminant of the `repr(u8)` enum. -/
def Gain.toBits : Gain → Nat
  | .Gain1 => 0b000
  | .Gain3 => 0b001
  | .Gain6 => 0b010
  | .Gain12_5 => 0b011
  | .Gain25 => 0b100
  | .Gain50 => 0b101
  | .Gain100 => 0b110
  | .Gain100Alt => 0b111

/-- Configuration register 1 (from `src/types.rs`). -/
structure Config where
  iir : Iir
  repeat_sensor_selftest : Bool
  pwm_mode : PwmMode
  dual_ir_sensor : Bool
  ks_sign_negative : Bool
  fir : Fir
  gain : Gain
  kt2_sign_negative : Bool
  sensor_selftest_disabled : Bool
deriving DecidableEq

/-- Convert from raw bits (`Config::from_bits` in `src/types.rs`). -/
def Config.from_bits (bits : Nat) : Config :=
  { iir := Iir.of_bits (bits &&& 0b111)
    repeat_sensor_selftest := (bits &&& (1 <<< 3)) != 0
    pwm_mode := PwmMode.of_bits ((bits >>> 4) &&& 0b11)
    dual_ir_sensor := (bits &&& (1 <<< 6)) != 0
    ks_sign_negative := (bits &&& (1 <<< 7)) != 0
    fir := Fir.of_bits ((bits >>> 8) &&& 0b111)
    gain := Gain.of_bits ((bits >>> 11) &&& 0b111)
    kt2_sign_negative := (bits &&& (1 <<< 14)) != 0
    sensor_selftest_disabled := (bits &&& (1 <<< 15)) != 0 }

/-- Convert to raw bits (`Config::as_bits` in `src/types.rs`); the `bits`
accumulator mirrors the source's `bits |= ...` sequence. -/
def Config.as_bits (c : Config) : Nat :=
  let bits : Nat := 0
  let bits := bits ||| c.iir.toBits
  let bits := if c.repeat_sensor_selftest then bits ||| (1 <<< 3) else bits
  let bits := bits ||| (c.pwm_mode.toBits <<< 4)
  let bits := if c.dual_ir_sensor then bits ||| (1 <<< 6) else bits
  let bits := if c.ks_sign_negative then bits ||| (1 <<< 7) else bits
  let bits := bits ||| (c.fir.toBits <<< 8)
  let bits := bits ||| (c.gain.toBits <<< 11)
  let bits := if c.kt2_sign_negative then bits ||| (1 <<< 14) else bits
  let bits := if c.sensor_selftest_disabled then bits ||| (1 <<< 15) else bits
  bits

end types

namespace mlx90614

/-- IIR filter settings, bits 0-2 (the duplicate codec in `src/mlx90614.rs`). -/
inductive Iir where
  | Step50 | Step25 | Step17 | Step13 | Step100 | Step80 | Step67 | Step57
deriving DecidableEq

/-- Decode arm of `Config::from_bits` in `src/mlx90614.rs` for the IIR field. -/
def Iir.of_bits (n : Nat) : Iir :=
  match n with
  | 0b000 => .Step50
  | 0b001 => .Step25
  | 0b010 => .Step17
  | 0b011 => .Step13
  | 0b100 => .Step100
  | 0b101 => .Step80
  | 0b110 => .Step67
  | _ => .Step57

/-- Discriminant of the `repr(u8)` enum in `src/mlx90614.rs`. -/
def Iir.toBits : Iir → Nat
  | .Step50 => 0b000
  | .Step25 => 0b001
  | .Step17 => 0b010
  | .Step13 => 0b011
  | .Step100 => 0b100
  | .Step80 => 0b101
  | .Step67 => 0b110
  | .Step57 => 0b111

/-- PWM mode configuration, bits 4-5 (duplicate codec in `src/mlx90614.rs`). -/
inductive PwmMode where
  | TaTobj1 | TaTobj2 | Tobj2 | Tobj1Tobj2
deriving DecidableEq

/-- Decode arm of `Config::from_bits` in `src/mlx90614.rs` for the PWM field. -/
def PwmMode.of_bits (n : Nat) : PwmMode :=
  match n with
  | 0b00 => .TaTobj1
  | 0b01 => .TaTobj2
  | 0b10 => .Tobj2
  | _ => .Tobj1Tobj2

/-- Discriminant of the `repr(u8)` enum in `src/mlx90614.rs`. -/
def PwmMode.toBits : PwmMode → Nat
  | .TaTobj1 => 0b00
  | .TaTobj2 => 0b01
  | .Tobj2 => 0b10
  | .Tobj1Tobj2 => 0b11

/-- FIR filter settings, bits 8-10 (duplicate codec in `src/mlx90614.rs`). -/
inductive Fir where
  | Step8 | Step16 | Step32 | Step64 | Step128 | Step256 | Step512 | Step1024
deriving DecidableEq

/-- Decode arm of `Config::from_bits` in `src/mlx90614.rs` for the FIR field. -/
def Fir.of_bits (n : Nat) : Fir :=
  match n with
  | 0b000 => .Step8
  | 0b001 => .Step16
  | 0b010 => .Step32
  | 0b011 => .Step64
  | 0b100 => .Step128
  | 0b101 => .Step256
  | 0b110 => .Step512
  | _ => .Step1024

/-- Discriminant of the `repr(u8)` enum in `src/mlx90614.rs`. -/
def Fir.toBits : Fir → Nat
  | .Step8 => 0b000
  | .Step16 => 0b001
  | .Step32 => 0b010
  | .Step64 => 0b011
  | .Step128 => 0b100
  | .Step256 => 0b101
  | .Step512 => 0b110
  | .Step1024 => 0b111

/-- Amplifier gain settings, bits 11-13 (duplicate codec in `src/mlx90614.rs`). -/
inductive Gain where
  | Gain1 | Gain3 | Gain6 | Gain12_5 | Gain25 | Gain50 | Gain100 | Gain100Alt
deriving DecidableEq

/-- Decode arm of `Config::from_bits` in `src/mlx90614.rs` for the gain field. -/
def Gain.of_bits (n : Nat) : Gain :=
  match n with
  | 0b000 => .Gain1
  | 0b001 => .Gain3
  | 0b010 => .Gain6
  | 0b011 => .Gain12_5
  | 0b100 => .Gain25
  | 0b101 => .Gain50
  | 0b110 => .Gain100
  | _ => .Gain100Alt

/-- Discriminant of the `repr(u8)` enum in `src/mlx90614.rs`. -/
def Gain.toBits : Gain → Nat
  | .Gain1 => 0b000
  | .Gain3 => 0b001
  | .Gain6 => 0b010
  | .Gain12_5 => 0b011
  | .Gain25 => 0b100
  | .Gain50 => 0b101
  | .Gain100 => 0b110
  | .Gain100Alt => 0b111

/-- Configuration register 1 (the duplicate `Config` in `src/mlx90614.rs`). -/
structure Config where
  iir : Iir
  repeat_sensor_selftest : Bool
  pwm_mode : PwmMode
  dual_ir_sensor : Bool
  ks_sign_negative : Bool
  fir : Fir
  gain : Gain
  kt2_sign_negative : Bool
  sensor_selftest_disabled : Bool
deriving DecidableEq

/-- Convert from raw bits (`Config::from_bits` in `src/mlx90614.rs`). -/
def Config.from_bits (bits : Nat) : Config :=
  { iir := Iir.of_bits (bits &&& 0b111)
    repeat_sensor_selftest := (bits &&& (1 <<< 3)) != 0
    pwm_mode := PwmMode.of_bits ((bits >>> 4) &&& 0b11)
    dual_ir_sensor := (bits &&& (1 <<< 6)) != 0
    ks_sign_negative := (bits &&& (1 <<< 7)) != 0
    fir := Fir.of_bits ((bits >>> 8) &&& 0b111)
    gain := Gain.of_bits ((bits >>> 11) &&& 0b111)
    kt2_sign_negative := (bits &&& (1 <<< 14)) != 0
    sensor_selftest_disabled := (bits &&& (1 <<< 15)) != 0 }

/-- Convert to raw bits (`Config::as_bits` in `src/mlx90614.rs`). -/
def Config.as_bits (c : Config) : Nat :=
  let bits : Nat := 0
  let bits := bits ||| c.iir.toBits
  let bits := if c.repeat_sensor_selftest then bits ||| (1 <<< 3) else bits
  let bits := bits ||| (c.pwm_mode.toBits <<< 4)
  let bits := if c.dual_ir_sensor then bits ||| (1 <<< 6) else bits
  let bits := if c.ks_sign_negative then bits ||| (1 <<< 7) else bits
  let bits := bits ||| (c.fir.toBits <<< 8)
  let bits := bits ||| (c.gain.toBits <<< 11)
  let bits := if c.kt2_sign_negative then bits ||| (1 <<< 14) else bits
  let bits := if c.sensor_selftest_disabled then bits ||| (1 <<< 15) else bits
  bits

/-- Modelled from the spec: MLX90614 register addresses. The crate's
`register_access` module is not under `src/`; the values are the datasheet
register map the spec's Register Map component describes. Only the offsets
matter for the theorems below. -/
def Register.RAW_IR1 : Nat := 0x04

/-- Modelled from the spec: raw IR channel 2 register. -/
def Register.RAW_IR2 : Nat := 0x05

/-- Modelled from the spec: ambient temperature register. -/
def Register.TA : Nat := 0x06

/-- Modelled from the spec: object 1 temperature register. -/
def Register.TOBJ1 : Nat := 0x07

/-- Modelled from the spec: object 2 temperature register. -/
def Register.TOBJ2 : Nat := 0x08

/-- Modelled from the spec: emissivity register. -/
def Register.EMISSIVITY : Nat := 0x24

/-- Modelled from the spec: configuration register 1. -/
def Register.CONFIG_1 : Nat := 0x25

/-- Modelled from the spec: slave address register. -/
def Register.ADDRESS : Nat := 0x2E

/-- Modelled from the spec: first of the four consecutive ID registers. -/
def Register.ID0 : Nat := 0x3C

/-- Modelled from the spec: factory-default slave address. -/
def DEV_ADDR : Nat := 0x5A

/-- Modelled from the spec: the fixed wake delay in milliseconds; the doc
comment on `wake_mlx90614` in `src/mlx90614.rs` states the 33 ms value. -/
def WAKE_DELAY_MS : Nat := 33

/-- Bus events an operation can emit, in order: one 16-bit register write,
one 16-bit register read, or a blocking delay in milliseconds. -/
inductive BusEvent where
  | write16 (reg value : Nat)
  | read16 (reg : Nat)
  | delayMs (ms : Nat)
deriving DecidableEq

/-- Predicate singling out read transactions in a trace. -/
def BusEvent.isRead : BusEvent → Bool
  | .read16 _ => true
  | _ => false

/-- Environment scripting the device side of the bus: the outcome of a
16-bit read of each register, and of each 16-bit write. -/
structure BusEnv (E : Type) where
  readRes : Nat → Except (Error E) Nat
  writeRes : Nat → Nat → Except (Error E) Unit

/-- A driver computation: given a bus environment it produces a result and
the ordered trace of bus events it issued (up to and including a failing
transaction). -/
def DM (E α : Type) := BusEnv E → Except (Error E) α × List BusEvent

/-- Result without bus traffic. -/
def DM.pure {E α : Type} (a : α) : DM E α := fun _ => (.ok a, [])

/-- Lift an already-computed `Result` without bus traffic (used for the `?`
propagation of pure helper results). -/
def DM.ofResult {E α : Type} (r : Except (Error E) α) : DM E α := fun _ => (r, [])

/-- Sequencing with error propagation; this is Rust's `?`: a failing step
short-circuits, keeping the trace emitted so far. -/
def DM.bind {E α β : Type} (m : DM E α) (f : α → DM E β) : DM E β := fun env =>
  match m env with
  | (.error e, t) => (.error e, t)
  | (.ok a, t) =>
    let r := f a env
    (r.1, t ++ r.2)

/-- Modelled from the spec: the transaction-engine `read16` primitive (spec
section 4.2) lives in crate-common code outside `src/`. It issues one read
transaction; the value, a checksum failure or a bus error is scripted by the
environment. -/
def read_u16 {E : Type} (reg : Nat) : DM E Nat := fun env =>
  (env.readRes reg, [.read16 reg])

/-- Modelled from the spec: `write_u16_eeprom` is defined in crate-common
code outside `src/`. It issues a single `write16` bus transfer of the value
to the register (spec section 4.2's write primitive); the erase/delay/
program/delay sequencing is done explicitly by its callers, matching the
two-write bus trace asserted by `can_set_config_1` in `tests/mlx90614.rs`. -/
def write_u16_eeprom {E : Type} (reg value : Nat) : DM E Unit := fun env =>
  (env.writeRes reg value, [.write16 reg value])

/-- One blocking delay of the given number of milliseconds. -/
def delay_ms {E : Type} (ms : Nat) : DM E Unit := fun _ =>
  (.ok (), [.delayMs ms])

/-- Temperature decode (`convert_to_temp` in `src/mlx90614.rs`): bit 15 set
means a fault; the error carries the value with bit 15 cleared. -/
def convert_to_temp (E : Type) (raw : Nat) : Except (Error E) Temperature :=
  if raw &&& 0x8000 ≠ 0 then
    .error (.BadRead ⟨raw &&& 0x7FFF⟩)
  else
    .ok ⟨raw⟩

/-- Read the ambient temperature (`ambient_temperature` in `src/mlx90614.rs`). -/
def ambient_temperature {E : Type} : DM E Temperature :=
  DM.bind (read_u16 Register.TA) fun raw => DM.ofResult (convert_to_temp E raw)

/-- Read the object 1 temperature (`object1_temperature`). -/
def object1_temperature {E : Type} : DM E Temperature :=
  DM.bind (read_u16 Register.TOBJ1) fun raw => DM.ofResult (convert_to_temp E raw)

/-- Read the object 2 temperature (`object2_temperature`). -/
def object2_temperature {E : Type} : DM E Temperature :=
  DM.bind (read_u16 Register.TOBJ2) fun raw => DM.ofResult (convert_to_temp E raw)

/-- Get the configuration register 1 (`config_1` in `src/mlx90614.rs`). -/
def config_1 {E : Type} : DM E Config :=
  DM.bind (read_u16 Register.CONFIG_1) fun bits => DM.pure (Config.from_bits bits)

/-- Set the configuration register 1 (`set_config_1` in `src/mlx90614.rs`):
erase write, settle delay, program write, settle delay, then an independent
read-back compared against the intended value. -/
def set_config_1 {E : Type} (dev : Mlx9061x) (config : Config) : DM E Unit :=
  DM.bind (write_u16_eeprom Register.CONFIG_1 0) fun _ =>
  DM.bind (delay_ms dev.eeprom_write_delay_ms) fun _ =>
  DM.bind (write_u16_eeprom Register.CONFIG_1 config.as_bits) fun _ =>
  DM.bind (delay_ms dev.eeprom_write_delay_ms) fun _ =>
  DM.bind config_1 fun current =>
  if config = current then DM.pure () else DM.ofResult (.error .BadEepromWrite)

/-- Get the device ID (`device_id` in `src/mlx90614.rs`): the source's
`for i in 0..4` loop accumulating `id |= part << (16 * (3 - i))`. -/
def device_id {E : Type} : DM E Nat :=
  (List.range 4).foldl
    (fun m i =>
      DM.bind m fun id =>
      DM.bind (read_u16 (Register.ID0 + i)) fun part =>
      DM.pure (id ||| (part <<< (16 * (3 - i)))))
    (DM.pure 0)

/-- Modelled from the spec: address validation (`get_address`, crate-common
code outside `src/`). Spec sections 3 and 4.6: candidate 0x00 and anything
outside the 7-bit range are rejected; the default resolves to the variant's
factory address. -/
def get_address (E : Type) (address : SlaveAddr) (default : Nat) :
    Except (Error E) Nat :=
  match address with
  | .Default => .ok default
  | .Alternative a => if a = 0 ∨ 0x7F < a then .error .InvalidInputData else .ok a

/-- Modelled from the spec: `set_address` (crate code outside `src/`).
Validation precedes any bus traffic (spec section 4.6); the commit sequence
follows the bus trace asserted by `can_change_address` in
`tests/mlx90614.rs`: erase write of 0x0000, settle delay, write of the
candidate (low byte, high byte 0x00), settle delay — that trace contains no
read-back transaction. -/
def set_address {E : Type} (dev : Mlx9061x) (address : SlaveAddr) : DM E Unit :=
  match get_address E address DEV_ADDR with
  | .error e => DM.ofResult (.error e)
  | .ok a =>
    DM.bind (write_u16_eeprom Register.ADDRESS 0) fun _ =>
    DM.bind (delay_ms dev.eeprom_write_delay_ms) fun _ =>
    DM.bind (write_u16_eeprom Register.ADDRESS a) fun _ =>
    delay_ms dev.eeprom_write_delay_ms

/-- GPIO events of the wake pulse, in order. -/
inductive PinEvent where
  | sclSetHigh
  | sdaSetLow
  | sdaSetHigh
  | delayMs (ms : Nat)
deriving DecidableEq

/-- Environment scripting the outcome of each GPIO pin operation. -/
structure PinEnv (E : Type) where
  sclSetHighRes : Except E Unit
  sdaSetLowRes : Except E Unit
  sdaSetHighRes : Except E Unit

/-- A GPIO computation: result plus the ordered pin events it performed. -/
def PinM (E α : Type) := PinEnv E → Except E α × List PinEvent

/-- Sequencing with error propagation for pin operations (Rust's `?`). -/
def PinM.bind {E α β : Type} (m : PinM E α) (f : α → PinM E β) : PinM E β :=
  fun env =>
  match m env with
  | (.error e, t) => (.error e, t)
  | (.ok a, t) =>
    let r := f a env
    (r.1, t ++ r.2)

/-- Drive the clock line high (`scl.set_high()`). -/
def scl_set_high {E : Type} : PinM E Unit := fun env =>
  (env.sclSetHighRes, [.sclSetHigh])

/-- Drive the data line low (`sda.set_low()`). -/
def sda_set_low {E : Type} : PinM E Unit := fun env =>
  (env.sdaSetLowRes, [.sdaSetLow])

/-- Release the data line high (`sda.set_high()`). -/
def sda_set_high {E : Type} : PinM E Unit := fun env =>
  (env.sdaSetHighRes, [.sdaSetHigh])

/-- The fixed blocking delay of the wake pulse. -/
def pin_delay_ms {E : Type} (ms : Nat) : PinM E Unit := fun _ =>
  (.ok (), [.delayMs ms])

/-- Wake the device from sleep (`wake_mlx90614` in `src/mlx90614.rs`):
clock high, data low, fixed delay, data high; the final pin result is
returned directly. -/
def wake_mlx90614 {E : Type} : PinM E Unit :=
  PinM.bind scl_set_high fun _ =>
  PinM.bind sda_set_low fun _ =>
  PinM.bind (pin_delay_ms WAKE_DELAY_MS) fun _ =>
  sda_set_high

end mlx90614

/-- Structural correspondence between the two `Iir` enums (same constructor
names in `src/types.rs` and `src/mlx90614.rs`). -/
def convertIir : types.Iir → mlx90614.Iir
  | .Step50 => .Step50
  | .Step25 => .Step25
  | .Step17 => .Step17
  | .Step13 => .Step13
  | .Step100 => .Step100
  | .Step80 => .Step80
  | .Step67 => .Step67
  | .Step57 => .Step57

/-- Structural correspondence between the two `PwmMode` enums. -/
def convertPwmMode : types.PwmMode → mlx90614.PwmMode
  | .TaTobj1 => .TaTobj1
  | .TaTobj2 => .TaTobj2
  | .Tobj2 => .Tobj2
  | .Tobj1Tobj2 => .Tobj1Tobj2

/-- Structural correspondence between the two `Fir` enums. -/
def convertFir : types.Fir → mlx90614.Fir
  | .Step8 => .Step8
  | .Step16 => .Step16
  | .Step32 => .Step32
  | .Step64 => .Step64
  | .Step128 => .Step128
  | .Step256 => .Step256
  | .Step512 => .Step512
  | .Step1024 => .Step1024

/-- Structural correspondence between the two `Gain` enums. -/
def convertGain : types.Gain → mlx90614.Gain
  | .Gain1 => .Gain1
  | .Gain3 => .Gain3
  | .Gain6 => .Gain6
  | .Gain12_5 => .Gain12_5
  | .Gain25 => .Gain25
  | .Gain50 => .Gain50
  | .Gain100 => .Gain100
  | .Gain100Alt => .Gain100Alt

/-- Field-wise correspondence between the two `Config` structs. -/
def convertConfig (c : types.Config) : mlx90614.Config :=
  { iir := convertIir c.iir
    repeat_sensor_selftest := c.repeat_sensor_selftest
    pwm_mode := convertPwmMode c.pwm_mode
    dual_ir_sensor := c.dual_ir_sensor
    ks_sign_negative := c.ks_sign_negative
    fir := convertFir c.fir
    gain := convertGain c.gain
    kt2_sign_negative := c.kt2_sign_negative
    sensor_selftest_disabled := c.sensor_selftest_disabled }

/-- Modelled from the spec: `Temperature::as_millikelvin` (crate code
outside `src/`), spec section 4.4: millikelvin = raw * 20. -/
def Temperature.as_millikelvin (t : Temperature) : Int := (t.raw : Int) * 20

/-- Modelled from the spec: millicelsius = millikelvin - 273150. -/
def Temperature.as_millicelsius (t : Temperature) : Int :=
  t.as_millikelvin - 273150

/-- Modelled from the spec: millifahrenheit = millikelvin * 9 / 5 - 459670,
with integer division truncating toward zero (`Int.tdiv`, matching Rust's
`/` on signed integers). -/
def Temperature.as_millifahrenheit (t : Temperature) : Int :=
  Int.tdiv (t.as_millikelvin * 9) 5 - 459670

theorem or_disjoint_eq_add (x y : Nat) (h : x &&& y = 0) : x ||| y = x + y := by
  induction x using Nat.strong_induction_on generalizing y with
  | _ x ih =>
    by_cases hx : x = 0
    · subst hx; simp
    · have hpos : 0 < x := Nat.pos_of_ne_zero hx
      have hhalf : x / 2 &&& y / 2 = 0 := by
        rw [← Nat.and_div_two, h]
      have ih2 := ih (x / 2) (Nat.div_lt_self hpos (by omega)) (y / 2) hhalf
      have hdiv : (x ||| y) / 2 = x / 2 ||| y / 2 := Nat.or_div_two
      have hnotboth : ¬(x % 2 = 1 ∧ y % 2 = 1) := by
        intro hb
        have := Nat.and_mod_two_eq_one.mpr hb
        rw [h] at this
        simp at this
      have hmod : (x ||| y) % 2 = 1 ↔ x % 2 = 1 ∨ y % 2 = 1 := Nat.or_mod_two_eq_one
      have h1 := Nat.div_add_mod (x ||| y) 2
      have h2 := Nat.div_add_mod x 2
      have h3 := Nat.div_add_mod y 2
      have hm1 : (x ||| y) % 2 < 2 := Nat.mod_lt _ (by omega)
      have hm2 : x % 2 < 2 := Nat.mod_lt _ (by omega)
      have hm3 : y % 2 < 2 := Nat.mod_lt _ (by omega)
      omega

theorem shift_disjoint (x y k : Nat) (hx : x < 2 ^ k) : x &&& (y <<< k) = 0 := by
  apply Nat.eq_of_testBit_eq
  intro i
  simp only [Nat.testBit_and, Nat.zero_testBit]
  rcases Nat.lt_or_ge i k with hik | hik
  · have : (y <<< k).testBit i = false := by
      simp [Nat.testBit_shiftLeft, Nat.not_le.mpr hik]
    simp [this]
  · have : x.testBit i = false := by
      apply Nat.testBit_lt_two_pow
      exact Nat.lt_of_lt_of_le hx (Nat.pow_le_pow_right (by omega) hik)
    simp [this]

theorem or_shift_add (x y k : Nat) (hx : x < 2 ^ k) :
    x ||| (y <<< k) = x + y * 2 ^ k := by
  rw [or_disjoint_eq_add _ _ (shift_disjoint x y k hx), Nat.shiftLeft_eq]

theorem if_or_eq (b : Bool) (z m : Nat) :
    (if b then z ||| m else z) = z ||| (cond b m 0) := by
  cases b <;> simp

theorem cond_shift (b : Bool) (k : Nat) :
    (cond b (1 <<< k) 0 : Nat) = (cond b 1 0) <<< k := by
  cases b <;> simp

theorem cond_le_one (b : Bool) : (cond b 1 0 : Nat) ≤ 1 := by
  cases b <;> simp

theorem and_seven (x : Nat) : x &&& 7 = x % 8 := by
  have := Nat.and_pow_two_sub_one_eq_mod x 3
  norm_num at this
  exact this

theorem and_three (x : Nat) : x &&& 3 = x % 4 := by
  have := Nat.and_pow_two_sub_one_eq_mod x 2
  norm_num at this
  exact this

theorem bit_test (x k : Nat) :
    ((x &&& (1 <<< k)) != 0) = decide (x / 2 ^ k % 2 = 1) := by
  rw [Nat.one_shiftLeft, Nat.and_two_pow, Nat.testBit_to_div_mod]
  have h2 : (2 : Nat) ^ k ≠ 0 := (pow_pos (by omega) k).ne'
  rcases Nat.mod_two_eq_zero_or_one (x / 2 ^ k) with h | h <;> simp [h, h2]

theorem cond_decide (m : Nat) (h : m < 2) :
    (cond (decide (m = 1)) 1 0 : Nat) = m := by
  interval_cases m <;> simp

theorem types_iir_toBits_lt (i : types.Iir) : i.toBits < 8 := by
  cases i <;> decide

theorem types_iir_of_toBits (i : types.Iir) : types.Iir.of_bits i.toBits = i := by
  cases i <;> rfl

theorem types_iir_toBits_of_bits (n : Nat) (h : n < 8) :
    (types.Iir.of_bits n).toBits = n := by
  have : n = 0 ∨ n = 1 ∨ n = 2 ∨ n = 3 ∨ n = 4 ∨ n = 5 ∨ n = 6 ∨ n = 7 := by omega
  rcases this with h|h|h|h|h|h|h|h <;> subst h <;> rfl

theorem types_pwm_toBits_lt (p : types.PwmMode) : p.toBits < 4 := by
  cases p <;> decide

theorem types_pwm_of_toBits (p : types.PwmMode) :
    types.PwmMode.of_bits p.toBits = p := by
  cases p <;> rfl

theorem types_pwm_toBits_of_bits (n : Nat) (h : n < 4) :
    (types.PwmMode.of_bits n).toBits = n := by
  have : n = 0 ∨ n = 1 ∨ n = 2 ∨ n = 3 := by omega
  rcases this with h|h|h|h <;> subst h <;> rfl

theorem types_fir_toBits_lt (f : types.Fir) : f.toBits < 8 := by
  cases f <;> decide

theorem types_fir_of_toBits (f : types.Fir) : types.Fir.of_bits f.toBits = f := by
  cases f <;> rfl

theorem types_fir_toBits_of_bits (n : Nat) (h : n < 8) :
    (types.Fir.of_bits n).toBits = n := by
  have : n = 0 ∨ n = 1 ∨ n = 2 ∨ n = 3 ∨ n = 4 ∨ n = 5 ∨ n = 6 ∨ n = 7 := by omega
  rcases this with h|h|h|h|h|h|h|h <;> subst h <;> rfl

theorem types_gain_toBits_lt (g : types.Gain) : g.toBits < 8 := by
  cases g <;> decide

theorem types_gain_of_toBits (g : types.Gain) :
    types.Gain.of_bits g.toBits = g := by
  cases g <;> rfl

theorem types_gain_toBits_of_bits (n : Nat) (h : n < 8) :
    (types.Gain.of_bits n).toBits = n := by
  have : n = 0 ∨ n = 1 ∨ n = 2 ∨ n = 3 ∨ n = 4 ∨ n = 5 ∨ n = 6 ∨ n = 7 := by omega
  rcases this with h|h|h|h|h|h|h|h <;> subst h <;> rfl

theorem types_as_bits_eq (c : types.Config) :
    c.as_bits = c.iir.toBits + 8 * (cond c.repeat_sensor_selftest 1 0)
      + 16 * c.pwm_mode.toBits + 64 * (cond c.dual_ir_sensor 1 0)
      + 128 * (cond c.ks_sign_negative 1 0) + 256 * c.fir.toBits
      + 2048 * c.gain.toBits + 16384 * (cond c.kt2_sign_negative 1 0)
      + 32768 * (cond c.sensor_selftest_disabled 1 0) := by
  obtain ⟨i, r, p, d, k, f, g, k2, s⟩ := c
  have hi := types_iir_toBits_lt i
  have hp := types_pwm_toBits_lt p
  have hf := types_fir_toBits_lt f
  have hg := types_gain_toBits_lt g
  have hr := cond_le_one r
  have hd := cond_le_one d
  have hk := cond_le_one k
  have hk2 := cond_le_one k2
  have hs := cond_le_one s
  simp only [types.Config.as_bits, if_or_eq, cond_shift, Nat.zero_or]
  rw [or_shift_add _ _ 3 (by omega)]
  rw [or_shift_add _ _ 4 (by omega)]
  rw [or_shift_add _ _ 6 (by omega)]
  rw [or_shift_add _ _ 7 (by omega)]
  rw [or_shift_add _ _ 8 (by omega)]
  rw [or_shift_add _ _ 11 (by omega)]
  rw [or_shift_add _ _ 14 (by omega)]
  rw [or_shift_add _ _ 15 (by omega)]
  ring

theorem types_as_bits_lt (c : types.Config) : c.as_bits < 65536 := by
  have hsum := types_as_bits_eq c
  have hi := types_iir_toBits_lt c.iir
  have hp := types_pwm_toBits_lt c.pwm_mode
  have hf := types_fir_toBits_lt c.fir
  have hg := types_gain_toBits_lt c.gain
  have hr := cond_le_one c.repeat_sensor_selftest
  have hd := cond_le_one c.dual_ir_sensor
  have hk := cond_le_one c.ks_sign_negative
  have hk2 := cond_le_one c.kt2_sign_negative
  have hs := cond_le_one c.sensor_selftest_disabled
  omega

theorem types_from_as_bits (c : types.Config) :
    types.Config.from_bits c.as_bits = c := by
  obtain ⟨i, r, p, d, k, f, g, k2, s⟩ := c
  have hsum := types_as_bits_eq ⟨i, r, p, d, k, f, g, k2, s⟩
  simp only at hsum
  have hi := types_iir_toBits_lt i
  have hp := types_pwm_toBits_lt p
  have hf := types_fir_toBits_lt f
  have hg := types_gain_toBits_lt g
  have hr := cond_le_one r
  have hd := cond_le_one d
  have hk := cond_le_one k
  have hk2 := cond_le_one k2
  have hs := cond_le_one s
  set S := types.Config.as_bits ⟨i, r, p, d, k, f, g, k2, s⟩ with hS
  simp only [types.Config.from_bits, types.Config.mk.injEq]
  refine ⟨?_, ?_, ?_, ?_, ?_, ?_, ?_, ?_, ?_⟩
  · rw [and_seven]
    have : S % 8 = i.toBits := by omega
    rw [this, types_iir_of_toBits]
  · rw [bit_test]
    have : S / 2 ^ 3 % 2 = cond r 1 0 := by omega
    rw [this]
    cases r <;> simp
  · rw [Nat.shiftRight_eq_div_pow, and_three]
    have : S / 2 ^ 4 % 4 = p.toBits := by omega
    rw [this, types_pwm_of_toBits]
  · rw [bit_test]
    have : S / 2 ^ 6 % 2 = cond d 1 0 := by omega
    rw [this]
    cases d <;> simp
  · rw [bit_test]
    have : S / 2 ^ 7 % 2 = cond k 1 0 := by omega
    rw [this]
    cases k <;> simp
  · rw [Nat.shiftRight_eq_div_pow, and_seven]
    have : S / 2 ^ 8 % 8 = f.toBits := by omega
    rw [this, types_fir_of_toBits]
  · rw [Nat.shiftRight_eq_div_pow, and_seven]
    have : S / 2 ^ 11 % 8 = g.toBits := by omega
    rw [this, types_gain_of_toBits]
  · rw [bit_test]
    have : S / 2 ^ 14 % 2 = cond k2 1 0 := by omega
    rw [this]
    cases k2 <;> simp
  · rw [bit_test]
    have : S / 2 ^ 15 % 2 = cond s 1 0 := by omega
    rw [this]
    cases s <;> simp

theorem types_as_from_bits (b : Nat) (hb : b < 65536) :
    (types.Config.from_bits b).as_bits = b := by
  rw [types_as_bits_eq]
  simp only [types.Config.from_bits]
  rw [and_seven, types_iir_toBits_of_bits _ (by omega)]
  rw [Nat.shiftRight_eq_div_pow, and_three, types_pwm_toBits_of_bits _ (by omega)]
  rw [Nat.shiftRight_eq_div_pow, and_seven, types_fir_toBits_of_bits _ (by omega)]
  rw [Nat.shiftRight_eq_div_pow, and_seven, types_gain_toBits_of_bits _ (by omega)]
  rw [bit_test, bit_test, bit_test, bit_test, bit_test]
  rw [cond_decide _ (Nat.mod_lt _ (by omega))]
  rw [cond_decide _ (Nat.mod_lt _ (by omega))]
  rw [cond_decide _ (Nat.mod_lt _ (by omega))]
  rw [cond_decide _ (Nat.mod_lt _ (by omega))]
  rw [cond_decide _ (Nat.mod_lt _ (by omega))]
  norm_num
  omega

/-- C1: for every `Configuration` value `c`, `from_bits (as_bits c) = c`; for
every 16-bit pattern `b`, `as_bits (from_bits b) = b` (so `from_bits` is
total on 16-bit patterns and every pattern decodes to some configuration that
re-encodes to it, with no reserved combinations); and `as_bits` always stays
within 16 bits, its OR-composed fields never interacting. -/
theorem config_codec_roundtrip :
    (∀ c : types.Config, types.Config.from_bits c.as_bits = c)
    ∧ (∀ b : Nat, b < 65536 → (types.Config.from_bits b).as_bits = b)
    ∧ (∀ c : types.Config, c.as_bits < 65536) :=
  ⟨types_from_as_bits, types_as_from_bits, types_as_bits_lt⟩

/-- C1 witness: the round trips at the concrete register value 0x0404 and at
the configuration it decodes to (the spec's section 8 example). -/
theorem config_codec_roundtrip_witness :
    (types.Config.from_bits 0x0404).as_bits = 0x0404
    ∧ types.Config.from_bits
        (types.Config.as_bits
          ⟨.Step100, false, .TaTobj1, false, false, .Step128, .Gain1, false, false⟩)
      = ⟨.Step100, false, .TaTobj1, false, false, .Step128, .Gain1, false, false⟩ :=
  ⟨config_codec_roundtrip.2.1 0x0404 (by norm_num),
   config_codec_roundtrip.1 _⟩

theorem convertIir_of_bits (n : Nat) (h : n < 8) :
    convertIir (types.Iir.of_bits n) = mlx90614.Iir.of_bits n := by
  have hn : n = 0 ∨ n = 1 ∨ n = 2 ∨ n = 3 ∨ n = 4 ∨ n = 5 ∨ n = 6 ∨ n = 7 := by omega
  rcases hn with h'|h'|h'|h'|h'|h'|h'|h' <;> subst h' <;> rfl

theorem convertIir_toBits (i : types.Iir) :
    (convertIir i).toBits = i.toBits := by
  cases i <;> rfl

theorem convertPwmMode_of_bits (n : Nat) (h : n < 4) :
    convertPwmMode (types.PwmMode.of_bits n) = mlx90614.PwmMode.of_bits n := by
  have hn : n = 0 ∨ n = 1 ∨ n = 2 ∨ n = 3 := by omega
  rcases hn with h'|h'|h'|h' <;> subst h' <;> rfl

theorem convertPwmMode_toBits (p : types.PwmMode) :
    (convertPwmMode p).toBits = p.toBits := by
  cases p <;> rfl

theorem convertFir_of_bits (n : Nat) (h : n < 8) :
    convertFir (types.Fir.of_bits n) = mlx90614.Fir.of_bits n := by
  have hn : n = 0 ∨ n = 1 ∨ n = 2 ∨ n = 3 ∨ n = 4 ∨ n = 5 ∨ n = 6 ∨ n = 7 := by omega
  rcases hn with h'|h'|h'|h'|h'|h'|h'|h' <;> subst h' <;> rfl

theorem convertFir_toBits (f : types.Fir) :
    (convertFir f).toBits = f.toBits := by
  cases f <;> rfl

theorem convertGain_of_bits (n : Nat) (h : n < 8) :
    convertGain (types.Gain.of_bits n) = mlx90614.Gain.of_bits n := by
  have hn : n = 0 ∨ n = 1 ∨ n = 2 ∨ n = 3 ∨ n = 4 ∨ n = 5 ∨ n = 6 ∨ n = 7 := by omega
  rcases hn with h'|h'|h'|h'|h'|h'|h'|h' <;> subst h' <;> rfl

theorem convertGain_toBits (g : types.Gain) :
    (convertGain g).toBits = g.toBits := by
  cases g <;> rfl

theorem convert_from_bits (b : Nat) :
    convertConfig (types.Config.from_bits b) = mlx90614.Config.from_bits b := by
  have h7 : b &&& 7 = b % 8 := and_seven b
  have h3 : (b >>> 4) &&& 3 = (b >>> 4) % 4 := and_three _
  have h8 : (b >>> 8) &&& 7 = (b >>> 8) % 8 := and_seven _
  have h11 : (b >>> 11) &&& 7 = (b >>> 11) % 8 := and_seven _
  simp only [types.Config.from_bits, mlx90614.Config.from_bits, convertConfig,
    mlx90614.Config.mk.injEq]
  refine ⟨?_, trivial, ?_, trivial, trivial, ?_, ?_, trivial, trivial⟩
  · rw [h7]; exact convertIir_of_bits _ (Nat.mod_lt _ (by omega))
  · rw [h3]; exact convertPwmMode_of_bits _ (Nat.mod_lt _ (by omega))
  · rw [h8]; exact convertFir_of_bits _ (Nat.mod_lt _ (by omega))
  · rw [h11]; exact convertGain_of_bits _ (Nat.mod_lt _ (by omega))

theorem convert_as_bits (c : types.Config) :
    types.Config.as_bits c = mlx90614.Config.as_bits (convertConfig c) := by
  obtain ⟨i, r, p, d, k, f, g, k2, s⟩ := c
  simp only [types.Config.as_bits, mlx90614.Config.as_bits, convertConfig]
  rw [convertIir_toBits, convertPwmMode_toBits, convertFir_toBits,
    convertGain_toBits]

/-- C9: the two independently defined configuration codecs — `Config` with
`from_bits`/`as_bits` in `src/types.rs` and the duplicate in
`src/mlx90614.rs` — are extensionally equal: on every input both `from_bits`
produce field-wise identical configurations (along the structural field
correspondence `convertConfig`), and corresponding configurations encode to
the same 16-bit value under both `as_bits`. -/
theorem config_codecs_agree :
    (∀ b : Nat,
      convertConfig (types.Config.from_bits b) = mlx90614.Config.from_bits b)
    ∧ ∀ c : types.Config,
        types.Config.as_bits c = mlx90614.Config.as_bits (convertConfig c) :=
  ⟨convert_from_bits, convert_as_bits⟩

/-- C2: `convert_to_temp` fails with `BadRead` carrying `raw &&& 0x7FFF`
whenever bit 15 of the raw value is set, and returns `Temperature raw`
whenever bit 15 is clear. -/
theorem convert_to_temp_spec :
    ∀ (E : Type) (raw : Nat),
      (raw &&& 0x8000 ≠ 0 →
        mlx90614.convert_to_temp E raw = .error (.BadRead ⟨raw &&& 0x7FFF⟩))
      ∧ (raw &&& 0x8000 = 0 → mlx90614.convert_to_temp E raw = .ok ⟨raw⟩) := by
  intro E raw
  constructor <;> intro h <;> simp [mlx90614.convert_to_temp, h]

/-- C2 witness: the fault raw value 0x8001 decodes to a `BadRead` error
carrying the masked value 1, and the clean raw value 0x1234 decodes to a
temperature. -/
theorem convert_to_temp_spec_witness :
    mlx90614.convert_to_temp Unit 0x8001 = .error (.BadRead ⟨1⟩)
    ∧ mlx90614.convert_to_temp Unit 0x1234 = .ok ⟨0x1234⟩ := by
  constructor
  · have h := (convert_to_temp_spec Unit 0x8001).1 (by decide)
    rw [show (0x8001 : Nat) &&& 0x7FFF = 1 from by decide] at h
    exact h
  · exact (convert_to_temp_spec Unit 0x1234).2 (by decide)

/-- C10: every `Temperature` that `convert_to_temp` produces — returned on
success or carried inside the `BadRead` fault error — has bit 15 clear, and
so do the temperatures the public read operations return. -/
theorem temperature_fault_bit_clear :
    ∀ (E : Type) (raw : Nat) (t : Temperature),
      (mlx90614.convert_to_temp E raw = .ok t → t.raw &&& 0x8000 = 0)
      ∧ (mlx90614.convert_to_temp E raw = .error (.BadRead t) →
          t.raw &&& 0x8000 = 0)
      ∧ ∀ env : mlx90614.BusEnv E,
          ((mlx90614.ambient_temperature env).1 = .ok t →
              t.raw &&& 0x8000 = 0)
          ∧ ((mlx90614.object1_temperature env).1 = .ok t →
              t.raw &&& 0x8000 = 0)
          ∧ ((mlx90614.object2_temperature env).1 = .ok t →
              t.raw &&& 0x8000 = 0)
          ∧ (env.readRes mlx90614.Register.TA = .ok raw →
              (mlx90614.ambient_temperature env).1 = .error (.BadRead t) →
              t.raw &&& 0x8000 = 0) := by
  intro E raw t
  have hcore1 : ∀ r : Nat,
      mlx90614.convert_to_temp E r = .ok t → t.raw &&& 0x8000 = 0 := by
    intro r h
    unfold mlx90614.convert_to_temp at h
    split at h
    · exact absurd h (by simp)
    · next hc =>
      injection h with h2
      subst h2
      exact not_not.mp hc
  have hcore2 : ∀ r : Nat,
      mlx90614.convert_to_temp E r = .error (.BadRead t) →
        t.raw &&& 0x8000 = 0 := by
    intro r h
    unfold mlx90614.convert_to_temp at h
    split at h
    · injection h with h2
      injection h2 with h3
      subst h3
      show (r &&& 0x7FFF) &&& 0x8000 = 0
      rw [Nat.and_assoc, show (0x7FFF : Nat) &&& 0x8000 = 0 from by decide,
        Nat.and_zero]
    · exact absurd h (by simp)
  refine ⟨hcore1 raw, hcore2 raw, ?_⟩
  intro env
  refine ⟨?_, ?_, ?_, ?_⟩
  · rcases henv : env.readRes mlx90614.Register.TA with e | r
    · simp [mlx90614.ambient_temperature, mlx90614.DM.bind, mlx90614.read_u16,
        mlx90614.DM.ofResult, henv]
    · intro h
      refine hcore1 r ?_
      simpa [mlx90614.ambient_temperature, mlx90614.DM.bind, mlx90614.read_u16,
        mlx90614.DM.ofResult, henv] using h
  · rcases henv : env.readRes mlx90614.Register.TOBJ1 with e | r
    · simp [mlx90614.object1_temperature, mlx90614.DM.bind, mlx90614.read_u16,
        mlx90614.DM.ofResult, henv]
    · intro h
      refine hcore1 r ?_
      simpa [mlx90614.object1_temperature, mlx90614.DM.bind, mlx90614.read_u16,
        mlx90614.DM.ofResult, henv] using h
  · rcases henv : env.readRes mlx90614.Register.TOBJ2 with e | r
    · simp [mlx90614.object2_temperature, mlx90614.DM.bind, mlx90614.read_u16,
        mlx90614.DM.ofResult, henv]
    · intro h
      refine hcore1 r ?_
      simpa [mlx90614.object2_temperature, mlx90614.DM.bind, mlx90614.read_u16,
        mlx90614.DM.ofResult, henv] using h
  · intro hread h
    refine hcore2 raw ?_
    simpa [mlx90614.ambient_temperature, mlx90614.DM.bind, mlx90614.read_u16,
      mlx90614.DM.ofResult, hread] using h

/-- C10 witness: with a bus scripting the fault raw value 0x8123 on the
ambient register, the returned fault temperature has bit 15 clear. -/
theorem temperature_fault_bit_clear_witness :
    (0x123 : Nat) &&& 0x8000 = 0
    ∧ (mlx90614.ambient_temperature
        (⟨fun _ => .ok 0x8123, fun _ _ => .ok ()⟩ : mlx90614.BusEnv Unit)).1 =
        .error (.BadRead ⟨0x123⟩) := by
  refine ⟨?_, ?_⟩
  · exact ((temperature_fault_bit_clear Unit 0x8123 ⟨0x123⟩).2.2
      ⟨fun _ => .ok 0x8123, fun _ _ => .ok ()⟩).2.2.2 rfl (by rfl) ▸ (by decide)
  · rfl

/-- C6: the error type distinguishes the five kinds of the spec's taxonomy:
the transport wrap (`I2C`), `ChecksumMismatch`, `InvalidInputData`, the
dedicated failed-verification kind (`BadEepromWrite`, the spec's
NonVolatileWriteFailed) and the dedicated fault-reading kind (`BadRead`, the
spec's FaultReading), the latter faithfully carrying the partially-decoded
temperature. -/
theorem error_kinds_distinct :
    ∀ (E : Type) (e : E) (t t' : Temperature),
      Error.I2C e ≠ (Error.ChecksumMismatch : Error E)
      ∧ Error.I2C e ≠ (Error.InvalidInputData : Error E)
      ∧ Error.I2C e ≠ (Error.BadEepromWrite : Error E)
      ∧ Error.I2C e ≠ Error.BadRead t
      ∧ (Error.ChecksumMismatch : Error E) ≠ Error.InvalidInputData
      ∧ (Error.ChecksumMismatch : Error E) ≠ Error.BadEepromWrite
      ∧ (Error.ChecksumMismatch : Error E) ≠ Error.BadRead t
      ∧ (Error.InvalidInputData : Error E) ≠ Error.BadEepromWrite
      ∧ (Error.InvalidInputData : Error E) ≠ Error.BadRead t
      ∧ (Error.BadEepromWrite : Error E) ≠ Error.BadRead t
      ∧ (Error.BadRead (E := E) t = Error.BadRead t' → t = t') := by
  intro E e t t'
  refine ⟨?_, ?_, ?_, ?_, ?_, ?_, ?_, ?_, ?_, ?_, ?_⟩ <;>
    first
      | (intro h; exact Error.noConfusion h)
      | (intro h; injection h)

/-- C6 witness: the distinctions at concrete values. -/
theorem error_kinds_distinct_witness :
    (Error.BadEepromWrite : Error Unit) ≠ Error.BadRead ⟨1⟩
    ∧ (⟨1⟩ : Temperature) = ⟨1⟩ :=
  ⟨(error_kinds_distinct Unit () ⟨1⟩ ⟨1⟩).2.2.2.2.2.2.2.2.2.1,
   (error_kinds_distinct Unit () ⟨1⟩ ⟨1⟩).2.2.2.2.2.2.2.2.2.2 rfl⟩

/-- C7: for raw values with bit 15 clear, the integer conversions are
exactly millikelvin = raw * 20, millicelsius = millikelvin - 273150 and
millifahrenheit = millikelvin * 9 / 5 - 459670 with truncating division;
the division is in fact exact, so millifahrenheit = raw * 36 - 459670. -/
theorem temperature_milli_conversions :
    ∀ raw : Nat, raw &&& 0x8000 = 0 →
      Temperature.as_millikelvin ⟨raw⟩ = (raw : Int) * 20
      ∧ Temperature.as_millicelsius ⟨raw⟩ = (raw : Int) * 20 - 273150
      ∧ Temperature.as_millifahrenheit ⟨raw⟩ =
          Int.tdiv ((raw : Int) * 20 * 9) 5 - 459670
      ∧ Temperature.as_millifahrenheit ⟨raw⟩ = (raw : Int) * 36 - 459670 := by
  intro raw h
  refine ⟨rfl, rfl, rfl, ?_⟩
  show Int.tdiv ((raw : Int) * 20 * 9) 5 - 459670 = (raw : Int) * 36 - 459670
  have h5 : ((raw : Int) * 20 * 9) = 5 * ((raw : Int) * 36) := by ring
  rw [h5, Int.mul_tdiv_cancel_left _ (by norm_num)]

/-- C7 witness: the spec's numeric examples — raw 13658 gives millicelsius
10 and millifahrenheit 32018, raw 0 gives millicelsius -273150. -/
theorem temperature_milli_conversions_witness :
    Temperature.as_millicelsius ⟨13658⟩ = 10
    ∧ Temperature.as_millifahrenheit ⟨13658⟩ = 32018
    ∧ Temperature.as_millicelsius ⟨0⟩ = -273150 := by
  refine ⟨?_, ?_, ?_⟩
  · rw [(temperature_milli_conversions 13658 (by decide)).2.1]; norm_num
  · rw [(temperature_milli_conversions 13658 (by decide)).2.2.2]; norm_num
  · rw [(temperature_milli_conversions 0 (by decide)).2.1]; norm_num

/-- C8: the wake procedure performs exactly clock-high, data-low, the fixed
33 ms delay, data-high, in that order; a pin error at any step aborts the
rest of the sequence and is returned. -/
theorem wake_sequence_spec :
    mlx90614.WAKE_DELAY_MS = 33
    ∧ ∀ (E : Type) (env : mlx90614.PinEnv E),
      (env.sclSetHighRes = .ok () → env.sdaSetLowRes = .ok () →
        env.sdaSetHighRes = .ok () →
        mlx90614.wake_mlx90614 env =
          (.ok (), [.sclSetHigh, .sdaSetLow, .delayMs mlx90614.WAKE_DELAY_MS,
            .sdaSetHigh]))
      ∧ (∀ e : E, env.sclSetHighRes = .error e →
          mlx90614.wake_mlx90614 env = (.error e, [.sclSetHigh]))
      ∧ (∀ e : E, env.sclSetHighRes = .ok () → env.sdaSetLowRes = .error e →
          mlx90614.wake_mlx90614 env = (.error e, [.sclSetHigh, .sdaSetLow]))
      ∧ (∀ e : E, env.sclSetHighRes = .ok () → env.sdaSetLowRes = .ok () →
          env.sdaSetHighRes = .error e →
          mlx90614.wake_mlx90614 env =
            (.error e, [.sclSetHigh, .sdaSetLow,
              .delayMs mlx90614.WAKE_DELAY_MS, .sdaSetHigh])) := by
  refine ⟨rfl, ?_⟩
  intro E env
  refine ⟨?_, ?_, ?_, ?_⟩
  · intro h1 h2 h3
    simp [mlx90614.wake_mlx90614, mlx90614.PinM.bind, mlx90614.scl_set_high,
      mlx90614.sda_set_low, mlx90614.sda_set_high, mlx90614.pin_delay_ms,
      h1, h2, h3]
  · intro e h1
    simp [mlx90614.wake_mlx90614, mlx90614.PinM.bind, mlx90614.scl_set_high,
      mlx90614.sda_set_low, mlx90614.sda_set_high, mlx90614.pin_delay_ms, h1]
  · intro e h1 h2
    simp [mlx90614.wake_mlx90614, mlx90614.PinM.bind, mlx90614.scl_set_high,
      mlx90614.sda_set_low, mlx90614.sda_set_high, mlx90614.pin_delay_ms,
      h1, h2]
  · intro e h1 h2 h3
    simp [mlx90614.wake_mlx90614, mlx90614.PinM.bind, mlx90614.scl_set_high,
      mlx90614.sda_set_low, mlx90614.sda_set_high, mlx90614.pin_delay_ms,
      h1, h2, h3]

/-- C8 witness: the wake pulse on an all-succeeding pin pair, and the abort
when driving the clock line fails. -/
theorem wake_sequence_spec_witness :
    mlx90614.wake_mlx90614 (⟨.ok (), .ok (), .ok ()⟩ : mlx90614.PinEnv Unit) =
      (.ok (), [.sclSetHigh, .sdaSetLow, .delayMs mlx90614.WAKE_DELAY_MS,
        .sdaSetHigh])
    ∧ mlx90614.wake_mlx90614
        (⟨.error (), .ok (), .ok ()⟩ : mlx90614.PinEnv Unit) =
      (.error (), [.sclSetHigh]) :=
  ⟨(wake_sequence_spec.2 Unit _).1 rfl rfl rfl,
   (wake_sequence_spec.2 Unit _).2.1 () rfl⟩

/-- C3: `set_config_1` commits a configuration by exactly erase-write of
0x0000, settle delay, program write of the packed value, settle delay, then
an independent read-back that is unpacked and compared; a mismatch yields
the terminal `BadEepromWrite`, which is distinct from the transport error
kind, and the trace shows no retry. -/
theorem set_config_1_sequence_spec :
    ∀ (E : Type) (env : mlx90614.BusEnv E) (dev : Mlx9061x)
      (cfg : mlx90614.Config) (rb : Nat),
      env.writeRes mlx90614.Register.CONFIG_1 0 = .ok () →
      env.writeRes mlx90614.Register.CONFIG_1 cfg.as_bits = .ok () →
      env.readRes mlx90614.Register.CONFIG_1 = .ok rb →
      ((mlx90614.set_config_1 dev cfg env).2 =
          [.write16 mlx90614.Register.CONFIG_1 0,
           .delayMs dev.eeprom_write_delay_ms,
           .write16 mlx90614.Register.CONFIG_1 cfg.as_bits,
           .delayMs dev.eeprom_write_delay_ms,
           .read16 mlx90614.Register.CONFIG_1])
      ∧ (cfg = mlx90614.Config.from_bits rb →
          (mlx90614.set_config_1 dev cfg env).1 = .ok ())
      ∧ (cfg ≠ mlx90614.Config.from_bits rb →
          (mlx90614.set_config_1 dev cfg env).1 = .error .BadEepromWrite)
      ∧ ∀ e : E, (Error.BadEepromWrite : Error E) ≠ .I2C e := by
  intro E env dev cfg rb hw0 hw1 hr
  by_cases hc : cfg = mlx90614.Config.from_bits rb
  · subst hc
    refine ⟨?_, fun _ => ?_, fun hne => absurd rfl hne, fun e h => Error.noConfusion h⟩ <;>
      simp [mlx90614.set_config_1, mlx90614.DM.bind, mlx90614.write_u16_eeprom,
        mlx90614.delay_ms, mlx90614.config_1, mlx90614.read_u16, mlx90614.DM.pure,
        mlx90614.DM.ofResult, hw0, hw1, hr]
  · refine ⟨?_, fun heq => absurd heq hc, fun _ => ?_, fun e h => Error.noConfusion h⟩ <;>
      simp [mlx90614.set_config_1, mlx90614.DM.bind, mlx90614.write_u16_eeprom,
        mlx90614.delay_ms, mlx90614.config_1, mlx90614.read_u16, mlx90614.DM.pure,
        mlx90614.DM.ofResult, hw0, hw1, hr, hc]

/-- C3 witness: committing the configuration 0x0404 (the repository's own
test vector) against a bus that reads back 0x0404 succeeds with exactly the
erase, delay, program, delay, verify-read trace. -/
theorem set_config_1_sequence_spec_witness :
    (mlx90614.set_config_1 (E := Unit) ⟨5⟩
        ⟨.Step100, false, .TaTobj1, false, false, .Step128, .Gain1, false, false⟩
        ⟨fun _ => .ok 0x0404, fun _ _ => .ok ()⟩).1 = .ok ()
    ∧ (mlx90614.set_config_1 (E := Unit) ⟨5⟩
        ⟨.Step100, false, .TaTobj1, false, false, .Step128, .Gain1, false, false⟩
        ⟨fun _ => .ok 0x0404, fun _ _ => .ok ()⟩).2 =
      [.write16 mlx90614.Register.CONFIG_1 0, .delayMs 5,
       .write16 mlx90614.Register.CONFIG_1
         (mlx90614.Config.as_bits
           ⟨.Step100, false, .TaTobj1, false, false, .Step128, .Gain1, false,
            false⟩),
       .delayMs 5, .read16 mlx90614.Register.CONFIG_1] :=
  ⟨((set_config_1_sequence_spec Unit ⟨fun _ => .ok 0x0404, fun _ _ => .ok ()⟩
      ⟨5⟩ _ 0x0404) rfl rfl rfl).2.1 (by decide),
   ((set_config_1_sequence_spec Unit ⟨fun _ => .ok 0x0404, fun _ _ => .ok ()⟩
      ⟨5⟩ _ 0x0404) rfl rfl rfl).1⟩

/-- C4 counterexample: at the concrete valid candidate 0x5C on an
all-succeeding bus, the commit trace of `set_address` is erase write, delay,
program write, delay — it contains no read transaction at all, so the
claimed mandatory post-write verification does not happen. -/
theorem set_address_no_verify_counterexample :
    (mlx90614.set_address (E := Unit) ⟨5⟩ (SlaveAddr.Alternative 0x5C)
        ⟨fun _ => .ok 0, fun _ _ => .ok ()⟩).2 =
      [.write16 mlx90614.Register.ADDRESS 0, .delayMs 5,
       .write16 mlx90614.Register.ADDRESS 0x5C, .delayMs 5]
    ∧ ((mlx90614.set_address (E := Unit) ⟨5⟩ (SlaveAddr.Alternative 0x5C)
        ⟨fun _ => .ok 0, fun _ _ => .ok ()⟩).2.all
          fun ev => !ev.isRead) = true := by
  exact ⟨rfl, rfl⟩

/-- C4 (amended): `set_address` rejects candidate 0x00 and any value outside
the 7-bit range with `InvalidInputData` before any bus traffic; for a valid
candidate it commits the candidate into the low byte of the address register
(high byte 0x00) by erase write, settle delay, program write, settle delay,
without a post-write read-back verification. -/
theorem set_address_validate_commit_spec :
    ∀ (E : Type) (env : mlx90614.BusEnv E) (dev : Mlx9061x) (a : Nat),
      (a = 0 ∨ 0x7F < a →
        mlx90614.set_address dev (SlaveAddr.Alternative a) env =
          (.error .InvalidInputData, []))
      ∧ (a ≠ 0 → a ≤ 0x7F →
          env.writeRes mlx90614.Register.ADDRESS 0 = .ok () →
          env.writeRes mlx90614.Register.ADDRESS a = .ok () →
          mlx90614.set_address dev (SlaveAddr.Alternative a) env =
            (.ok (), [.write16 mlx90614.Register.ADDRESS 0,
              .delayMs dev.eeprom_write_delay_ms,
              .write16 mlx90614.Register.ADDRESS a,
              .delayMs dev.eeprom_write_delay_ms])
          ∧ a % 256 = a ∧ a / 256 = 0) := by
  intro E env dev a
  constructor
  · intro hbad
    have hval : mlx90614.get_address E (.Alternative a) mlx90614.DEV_ADDR =
        .error .InvalidInputData := by
      simp [mlx90614.get_address, hbad]
    simp [mlx90614.set_address, hval, mlx90614.DM.ofResult]
  · intro h0 h7 hw0 hwa
    have hval : mlx90614.get_address E (.Alternative a) mlx90614.DEV_ADDR =
        .ok a := by
      have : ¬(a = 0 ∨ 0x7F < a) := by omega
      simp [mlx90614.get_address, this]
    refine ⟨?_, by omega, by omega⟩
    simp [mlx90614.set_address, hval, mlx90614.DM.bind,
      mlx90614.write_u16_eeprom, mlx90614.delay_ms, hw0, hwa]

/-- C4 witness: candidate 0x00 fails validation with no bus traffic, and
candidate 0x5C commits with the erase, delay, program, delay trace. -/
theorem set_address_validate_commit_witness :
    mlx90614.set_address (E := Unit) ⟨5⟩ (SlaveAddr.Alternative 0)
        ⟨fun _ => .ok 0, fun _ _ => .ok ()⟩ =
      (.error .InvalidInputData, [])
    ∧ mlx90614.set_address (E := Unit) ⟨5⟩ (SlaveAddr.Alternative 0x5C)
        ⟨fun _ => .ok 0, fun _ _ => .ok ()⟩ =
      (.ok (), [.write16 mlx90614.Register.ADDRESS 0, .delayMs 5,
        .write16 mlx90614.Register.ADDRESS 0x5C, .delayMs 5]) :=
  ⟨(set_address_validate_commit_spec Unit _ ⟨5⟩ 0).1 (Or.inl rfl),
   ((set_address_validate_commit_spec Unit _ ⟨5⟩ 0x5C).2 (by norm_num)
     (by norm_num) rfl rfl).1⟩

theorem shiftLeft_disjoint_of_lt (w A k m : Nat) (hw : w < 2 ^ m) :
    (w <<< k) &&& (A <<< (k + m)) = 0 := by
  apply Nat.eq_of_testBit_eq
  intro i
  simp only [Nat.testBit_and, Nat.zero_testBit, Nat.testBit_shiftLeft]
  rcases Nat.lt_or_ge i (k + m) with hi | hi
  · have hhigh : decide (k + m ≤ i) = false := by
      simp [Nat.not_le.mpr hi]
    simp [hhigh]
  · have hwbit : w.testBit (i - k) = false := by
      apply Nat.testBit_lt_two_pow
      exact Nat.lt_of_lt_of_le hw (Nat.pow_le_pow_right (by omega) (by omega))
    simp [hwbit]

theorem or_low_add (a w k m A : Nat) (ha : a = A * 2 ^ (k + m))
    (hw : w < 2 ^ m) : a ||| w * 2 ^ k = a + w * 2 ^ k := by
  subst ha
  rw [← Nat.shiftLeft_eq w k, ← Nat.shiftLeft_eq A (k + m), Nat.or_comm,
    or_disjoint_eq_add _ _ (shiftLeft_disjoint_of_lt w A k m hw),
    Nat.add_comm (w <<< k) (A <<< (k + m))]

theorem or_low_add0 (a w m A : Nat) (ha : a = A * 2 ^ m) (hw : w < 2 ^ m) :
    a ||| w = a + w := by
  have h := or_low_add a w 0 m A (by simpa using ha) hw
  simpa using h

theorem assemble_or_eq (w0 w1 w2 w3 : Nat) (_h0 : w0 < 65536) (h1 : w1 < 65536)
    (h2 : w2 < 65536) (h3 : w3 < 65536) :
    w0 <<< 48 ||| w1 <<< 32 ||| w2 <<< 16 ||| w3 =
      w0 * 2 ^ 48 + w1 * 2 ^ 32 + w2 * 2 ^ 16 + w3 := by
  have hb1 : w1 < 2 ^ 16 := by simpa using h1
  have hb2 : w2 < 2 ^ 16 := by simpa using h2
  have hb3 : w3 < 2 ^ 16 := by simpa using h3
  rw [Nat.shiftLeft_eq w0 48, Nat.shiftLeft_eq w1 32, Nat.shiftLeft_eq w2 16]
  rw [or_low_add _ w1 32 16 w0 (by ring) hb1]
  rw [or_low_add _ w2 16 16 (w0 * 2 ^ 16 + w1) (by ring) hb2]
  rw [or_low_add0 _ w3 16 (w0 * 2 ^ 32 + w1 * 2 ^ 16 + w2) (by ring) hb3]

/-- C5: `device_id` reads the four ID registers in ascending order, placing
word i at bit offset 16 * (3 - i) (first word most significant); any failing
read aborts the whole operation with that error and no identifier value is
produced. -/
theorem device_id_assembly_spec :
    ∀ (E : Type) (env : mlx90614.BusEnv E) (w0 w1 w2 w3 : Nat) (e : Error E),
      (env.readRes mlx90614.Register.ID0 = .ok w0 →
        env.readRes (mlx90614.Register.ID0 + 1) = .ok w1 →
        env.readRes (mlx90614.Register.ID0 + 2) = .ok w2 →
        env.readRes (mlx90614.Register.ID0 + 3) = .ok w3 →
        w0 < 65536 → w1 < 65536 → w2 < 65536 → w3 < 65536 →
        mlx90614.device_id env =
          (.ok (w0 * 2 ^ 48 + w1 * 2 ^ 32 + w2 * 2 ^ 16 + w3),
           [.read16 mlx90614.Register.ID0, .read16 (mlx90614.Register.ID0 + 1),
            .read16 (mlx90614.Register.ID0 + 2),
            .read16 (mlx90614.Register.ID0 + 3)]))
      ∧ (env.readRes mlx90614.Register.ID0 = .error e →
          mlx90614.device_id env =
            (.error e, [.read16 mlx90614.Register.ID0]))
      ∧ (env.readRes mlx90614.Register.ID0 = .ok w0 →
          env.readRes (mlx90614.Register.ID0 + 1) = .error e →
          mlx90614.device_id env =
            (.error e, [.read16 mlx90614.Register.ID0,
              .read16 (mlx90614.Register.ID0 + 1)]))
      ∧ (env.readRes mlx90614.Register.ID0 = .ok w0 →
          env.readRes (mlx90614.Register.ID0 + 1) = .ok w1 →
          env.readRes (mlx90614.Register.ID0 + 2) = .error e →
          mlx90614.device_id env =
            (.error e, [.read16 mlx90614.Register.ID0,
              .read16 (mlx90614.Register.ID0 + 1),
              .read16 (mlx90614.Register.ID0 + 2)]))
      ∧ (env.readRes mlx90614.Register.ID0 = .ok w0 →
          env.readRes (mlx90614.Register.ID0 + 1) = .ok w1 →
          env.readRes (mlx90614.Register.ID0 + 2) = .ok w2 →
          env.readRes (mlx90614.Register.ID0 + 3) = .error e →
          mlx90614.device_id env =
            (.error e, [.read16 mlx90614.Register.ID0,
              .read16 (mlx90614.Register.ID0 + 1),
              .read16 (mlx90614.Register.ID0 + 2),
              .read16 (mlx90614.Register.ID0 + 3)])) := by
  intro E env w0 w1 w2 w3 e
  refine ⟨?_, ?_, ?_, ?_, ?_⟩
  · intro h0 h1 h2 h3 hb0 hb1 hb2 hb3
    simp only [mlx90614.device_id, show List.range 4 = [0, 1, 2, 3] from rfl,
      List.foldl_cons, List.foldl_nil, mlx90614.DM.bind, mlx90614.DM.pure,
      mlx90614.read_u16, Nat.add_zero, h0, h1, h2, h3, List.cons_append,
      List.nil_append, List.append_nil, Nat.zero_or,
      show (16 * (3 - 0) : Nat) = 48 from by norm_num,
      show (16 * (3 - 1) : Nat) = 32 from by norm_num,
      show (16 * (3 - 2) : Nat) = 16 from by norm_num,
      show (16 * (3 - 3) : Nat) = 0 from by norm_num,
      Nat.shiftLeft_zero, Prod.mk.injEq, Except.ok.injEq]
    exact ⟨assemble_or_eq w0 w1 w2 w3 hb0 hb1 hb2 hb3, trivial⟩
  · intro he
    simp only [mlx90614.device_id, show List.range 4 = [0, 1, 2, 3] from rfl,
      List.foldl_cons, List.foldl_nil, mlx90614.DM.bind, mlx90614.DM.pure,
      mlx90614.read_u16, Nat.add_zero, he, List.cons_append, List.nil_append,
      List.append_nil, Prod.mk.injEq, Except.error.injEq]
  · intro h0 he
    simp only [mlx90614.device_id, show List.range 4 = [0, 1, 2, 3] from rfl,
      List.foldl_cons, List.foldl_nil, mlx90614.DM.bind, mlx90614.DM.pure,
      mlx90614.read_u16, Nat.add_zero, h0, he, List.cons_append,
      List.nil_append, List.append_nil, Prod.mk.injEq, Except.error.injEq]
  · intro h0 h1 he
    simp only [mlx90614.device_id, show List.range 4 = [0, 1, 2, 3] from rfl,
      List.foldl_cons, List.foldl_nil, mlx90614.DM.bind, mlx90614.DM.pure,
      mlx90614.read_u16, Nat.add_zero, h0, h1, he, List.cons_append,
      List.nil_append, List.append_nil, Prod.mk.injEq, Except.error.injEq]
  · intro h0 h1 h2 he
    simp only [mlx90614.device_id, show List.range 4 = [0, 1, 2, 3] from rfl,
      List.foldl_cons, List.foldl_nil, mlx90614.DM.bind, mlx90614.DM.pure,
      mlx90614.read_u16, Nat.add_zero, h0, h1, h2, he, List.cons_append,
      List.nil_append, List.append_nil, Prod.mk.injEq, Except.error.injEq]

/-- C5 witness: reading words 0x1234, 0x5678, 0x9ABC, 0xDEF0 in ascending
register order yields exactly 0x123456789ABCDEF0. -/
theorem device_id_assembly_witness :
    mlx90614.device_id (E := Unit)
      ⟨fun r =>
          if r = 0x3C then .ok 0x1234
          else if r = 0x3D then .ok 0x5678
          else if r = 0x3E then .ok 0x9ABC
          else .ok 0xDEF0,
        fun _ _ => .ok ()⟩ =
      (.ok 0x123456789ABCDEF0,
       [.read16 mlx90614.Register.ID0, .read16 (mlx90614.Register.ID0 + 1),
        .read16 (mlx90614.Register.ID0 + 2),
        .read16 (mlx90614.Register.ID0 + 3)]) := by
  have h := (device_id_assembly_spec Unit
    ⟨fun r =>
        if r = 0x3C then .ok 0x1234
        else if r = 0x3D then .ok 0x5678
        else if r = 0x3E then .ok 0x9ABC
        else .ok 0xDEF0,
      fun _ _ => .ok ()⟩
    0x1234 0x5678 0x9ABC 0xDEF0 Error.ChecksumMismatch).1
    rfl rfl rfl rfl (by norm_num) (by norm_num) (by norm_num) (by norm_num)
  rw [h]
  norm_num
